import Mathlib

/-!
Shallow embedding of the authoritative Pong server
(`src/server/src/index.ts`) of Mariamilashvili/Multiplayer-Pong-Game.

Coordinates and velocities are JavaScript numbers used only through
exact arithmetic in the server, so they are modelled as rationals.
Scores are natural numbers.  `Math.random() > 0.5` draws are modelled
by explicit `Bool` parameters threaded to the operations that consume
them (`createGameState`, `resetBall`, hence `updateBall`).  The
`rooms` and `playerRooms` JavaScript `Map`s are modelled as
association lists with `Map.get` / `Map.set` / `Map.delete` semantics.
The `setInterval` handle `Room.gameLoop` is modelled as a `Bool`
(loop running or not); a `tick` operation fires the interval callback
and is enabled only while the flag is set.
-/

namespace Pong

/-! ### Game constants (lines 18-24 of index.ts) -/

def GAME_WIDTH : ℚ := 800
def GAME_HEIGHT : ℚ := 400
def PADDLE_WIDTH : ℚ := 10
def PADDLE_HEIGHT : ℚ := 80
def BALL_SIZE : ℚ := 10
def PADDLE_SPEED : ℚ := 5
def BALL_SPEED : ℚ := 4

/-! ### Data model (lines 27-60) -/

structure Ball where
  x : ℚ
  y : ℚ
  dx : ℚ
  dy : ℚ
  deriving DecidableEq, Repr

structure Paddle where
  y : ℚ
  playerId : Option String
  deriving DecidableEq, Repr

structure Paddles where
  left : Paddle
  right : Paddle
  deriving DecidableEq, Repr

structure Score where
  left : ℕ
  right : ℕ
  deriving DecidableEq, Repr

structure GameState where
  ball : Ball
  paddles : Paddles
  score : Score
  gameActive : Bool
  players : List String
  deriving DecidableEq, Repr

structure Room where
  id : String
  gameState : GameState
  gameLoop : Bool
  deriving DecidableEq, Repr

/-- The two global `Map`s (lines 59-60) plus every room, as one state. -/
structure ServerState where
  rooms : List (String × Room)
  playerRooms : List (String × String)
  deriving DecidableEq, Repr

def initServer : ServerState := ⟨[], []⟩

/-! ### Association-list maps with JavaScript `Map` semantics -/

def getEntry (k : String) : List (String × α) → Option α
  | [] => none
  | (k', v) :: rest => if k' = k then some v else getEntry k rest

def setEntry (k : String) (v : α) : List (String × α) → List (String × α)
  | [] => [(k, v)]
  | (k', v') :: rest => if k' = k then (k, v) :: rest else (k', v') :: setEntry k v rest

def delEntry (k : String) : List (String × α) → List (String × α)
  | [] => []
  | (k', v') :: rest => if k' = k then rest else (k', v') :: delEntry k rest

/-! ### Wire messages emitted by the server -/

inductive Side where
  | left
  | right
  deriving DecidableEq, Repr

inductive Direction where
  | up
  | down
  deriving DecidableEq, Repr

inductive Msg where
  | paddleAssignment (side : Side)
  | gameStateMsg (gs : GameState)
  | gameStart
  | paddleUpdate (side : Side) (y : ℚ)
  | playerDisconnected
  deriving DecidableEq, Repr

inductive Emit where
  | toSocket (sid : String) (m : Msg)
  | toRoom (rid : String) (m : Msg)
  deriving DecidableEq, Repr

/-! ### createGameState (lines 63-88) -/

/-- `Math.random() > 0.5 ? BALL_SPEED : -BALL_SPEED` with the draw made
explicit: `true` picks the positive speed. -/
def randSpeed (r : Bool) : ℚ := if r then BALL_SPEED else -BALL_SPEED

def createGameState (r1 r2 : Bool) : GameState :=
  { ball := { x := GAME_WIDTH / 2, y := GAME_HEIGHT / 2
              dx := randSpeed r1, dy := randSpeed r2 }
    paddles :=
      { left := { y := GAME_HEIGHT / 2 - PADDLE_HEIGHT / 2, playerId := none }
        right := { y := GAME_HEIGHT / 2 - PADDLE_HEIGHT / 2, playerId := none } }
    score := { left := 0, right := 0 }
    gameActive := false
    players := [] }

/-! ### Physics: updateBall (lines 91-132) and resetBall (lines 134-139) -/

/-- `Math.abs`. -/
def jsAbs (q : ℚ) : ℚ := if q < 0 then -q else q

def resetBall (r1 r2 : Bool) (gs : GameState) : GameState :=
  { gs with ball := { x := GAME_WIDTH / 2, y := GAME_HEIGHT / 2
                      dx := randSpeed r1, dy := randSpeed r2 } }

/-- One physics step, translated statement by statement from
`updateBall`.  `x1`, `y1` are the ball coordinates after integration;
the wall bounce, left-paddle and right-paddle branches each rewrite
the velocity of the mutable `ball` object in source order. -/
def updateBall (r1 r2 : Bool) (gs : GameState) : GameState :=
  let x1 := gs.ball.x + gs.ball.dx
  let y1 := gs.ball.y + gs.ball.dy
  let dy1 := if y1 ≤ 0 ∨ y1 ≥ GAME_HEIGHT - BALL_SIZE then -gs.ball.dy else gs.ball.dy
  let hitL := x1 ≤ PADDLE_WIDTH ∧ y1 ≥ gs.paddles.left.y ∧
      y1 ≤ gs.paddles.left.y + PADDLE_HEIGHT
  let dx1 := if hitL then jsAbs gs.ball.dx else gs.ball.dx
  let dy2 := if hitL then ((y1 - gs.paddles.left.y) / PADDLE_HEIGHT - 1/2) * BALL_SPEED * 2
      else dy1
  let hitR := x1 ≥ GAME_WIDTH - PADDLE_WIDTH - BALL_SIZE ∧ y1 ≥ gs.paddles.right.y ∧
      y1 ≤ gs.paddles.right.y + PADDLE_HEIGHT
  let dx2 := if hitR then -(jsAbs dx1) else dx1
  let dy3 := if hitR then ((y1 - gs.paddles.right.y) / PADDLE_HEIGHT - 1/2) * BALL_SPEED * 2
      else dy2
  let gs1 := { gs with ball := { x := x1, y := y1, dx := dx2, dy := dy3 } }
  if x1 < 0 then
    resetBall r1 r2 { gs1 with score := { gs1.score with right := gs1.score.right + 1 } }
  else if x1 > GAME_WIDTH then
    resetBall r1 r2 { gs1 with score := { gs1.score with left := gs1.score.left + 1 } }
  else gs1

/-! ### joinGame handler (lines 166-203) -/

/-- Paddle assignment step of the `joinGame` handler (lines 184-190),
on the game state after the player was pushed. -/
def assignPaddle (sid : String) (gs : GameState) : GameState :=
  if gs.paddles.left.playerId = none then
    { gs with paddles := { gs.paddles with left := { gs.paddles.left with playerId := some sid } } }
  else if gs.paddles.right.playerId = none then
    { gs with paddles := { gs.paddles with right := { gs.paddles.right with playerId := some sid } } }
  else gs

/-- The `paddleAssignment` emission paired with `assignPaddle`. -/
def assignEmit (sid : String) (gs : GameState) : List Emit :=
  if gs.paddles.left.playerId = none then [Emit.toSocket sid (Msg.paddleAssignment Side.left)]
  else if gs.paddles.right.playerId = none then [Emit.toSocket sid (Msg.paddleAssignment Side.right)]
  else []

/-- The room the `joinGame` handler leaves in the registry under
`"room1"`: the existing room, or a fresh one (lines 170-176), with the
player pushed, a free paddle assigned, and the game activated (and the
loop started) when the player count reaches exactly 2. -/
def joinedRoom (sid : String) (r1 r2 : Bool) (st : ServerState) : Room :=
  let room0 := match getEntry "room1" st.rooms with
    | some r => r
    | none => { id := "room1", gameState := createGameState r1 r2, gameLoop := false }
  let gs1 := { room0.gameState with players := room0.gameState.players ++ [sid] }
  let gs2 := assignPaddle sid gs1
  if gs2.players.length = 2 then
    { id := "room1", gameState := { gs2 with gameActive := true }, gameLoop := true }
  else
    { id := "room1", gameState := gs2, gameLoop := room0.gameLoop }

/-- Emissions of the `joinGame` handler, in source order:
`paddleAssignment` to the joining socket, `gameStart` to the room when
the second player arrives, then the initial `gameState` to the socket. -/
def joinEmits (sid : String) (r1 r2 : Bool) (st : ServerState) : List Emit :=
  let room0 := match getEntry "room1" st.rooms with
    | some r => r
    | none => { id := "room1", gameState := createGameState r1 r2, gameLoop := false }
  let gs1 := { room0.gameState with players := room0.gameState.players ++ [sid] }
  let gs2 := assignPaddle sid gs1
  assignEmit sid gs1 ++
    (if gs2.players.length = 2 then [Emit.toRoom "room1" Msg.gameStart] else []) ++
    [Emit.toSocket sid (Msg.gameStateMsg (joinedRoom sid r1 r2 st).gameState)]

def joinGame (sid : String) (r1 r2 : Bool) (st : ServerState) : ServerState × List Emit :=
  ({ rooms := setEntry "room1" (joinedRoom sid r1 r2 st) st.rooms
     playerRooms := setEntry sid "room1" st.playerRooms },
   joinEmits sid r1 r2 st)

/-! ### paddleMove handler (lines 206-235) -/

/-- Movement clamp of the `paddleMove` handler (lines 223-227). -/
def movePaddleY (dir : Direction) (y : ℚ) : ℚ :=
  if dir = Direction.up ∧ y > 0 then max 0 (y - PADDLE_SPEED)
  else if dir = Direction.down ∧ y < GAME_HEIGHT - PADDLE_HEIGHT then
    min (GAME_HEIGHT - PADDLE_HEIGHT) (y + PADDLE_SPEED)
  else y

def paddleMove (sid : String) (dir : Direction) (st : ServerState) : ServerState × List Emit :=
  match getEntry sid st.playerRooms with
  | none => (st, [])
  | some roomId =>
    match getEntry roomId st.rooms with
    | none => (st, [])
    | some room =>
      let gs := room.gameState
      if gs.paddles.left.playerId = some sid then
        let y1 := movePaddleY dir gs.paddles.left.y
        let gs1 := { gs with paddles := { gs.paddles with left := { gs.paddles.left with y := y1 } } }
        ({ st with rooms := setEntry roomId { room with gameState := gs1 } st.rooms },
         [Emit.toRoom roomId (Msg.paddleUpdate Side.left y1)])
      else if gs.paddles.right.playerId = some sid then
        let y1 := movePaddleY dir gs.paddles.right.y
        let gs1 := { gs with paddles := { gs.paddles with right := { gs.paddles.right with y := y1 } } }
        ({ st with rooms := setEntry roomId { room with gameState := gs1 } st.rooms },
         [Emit.toRoom roomId (Msg.paddleUpdate Side.right y1)])
      else (st, [])

/-! ### disconnect handler (lines 238-269) -/

def disconnectPlayer (sid : String) (st : ServerState) : ServerState × List Emit :=
  match getEntry sid st.playerRooms with
  | none => (st, [])
  | some roomId =>
    match getEntry roomId st.rooms with
    | none => ({ st with playerRooms := delEntry sid st.playerRooms }, [])
    | some room =>
      let gs := room.gameState
      let players1 := gs.players.filter (fun id => id ≠ sid)
      let left1 := if gs.paddles.left.playerId = some sid then
          { gs.paddles.left with playerId := none } else gs.paddles.left
      let right1 := if gs.paddles.right.playerId = some sid then
          { gs.paddles.right with playerId := none } else gs.paddles.right
      if players1.length = 0 then
        ({ rooms := delEntry roomId st.rooms, playerRooms := delEntry sid st.playerRooms }, [])
      else
        let gs1 := { gs with players := players1,
                             paddles := { left := left1, right := right1 },
                             gameActive := false }
        ({ rooms := setEntry roomId { room with gameState := gs1, gameLoop := false } st.rooms,
           playerRooms := delEntry sid st.playerRooms },
         [Emit.toRoom roomId Msg.playerDisconnected])

/-! ### The tick loop (lines 141-159): one firing of the interval -/

def tickRoom (roomId : String) (r1 r2 : Bool) (st : ServerState) : ServerState × List Emit :=
  match getEntry roomId st.rooms with
  | none => (st, [])
  | some room =>
    if room.gameLoop then
      let gs1 := updateBall r1 r2 room.gameState
      ({ st with rooms := setEntry roomId { room with gameState := gs1 } st.rooms },
       [Emit.toRoom roomId (Msg.gameStateMsg gs1)])
    else (st, [])

/-! ### Reachable server states -/

inductive Op where
  | join (sid : String) (r1 r2 : Bool)
  | move (sid : String) (dir : Direction)
  | disc (sid : String)
  | tick (rid : String) (r1 r2 : Bool)
  deriving DecidableEq, Repr

def applyOp (st : ServerState) : Op → ServerState
  | Op.join sid r1 r2 => (joinGame sid r1 r2 st).1
  | Op.move sid dir => (paddleMove sid dir st).1
  | Op.disc sid => (disconnectPlayer sid st).1
  | Op.tick rid r1 r2 => (tickRoom rid r1 r2 st).1

def runOps (ops : List Op) : ServerState :=
  ops.foldl applyOp initServer

def Reachable (st : ServerState) : Prop := ∃ ops, runOps ops = st

/-! ### Sequences of physics steps and resets (for the velocity invariant) -/

inductive PhysOp where
  | step (r1 r2 : Bool)
  | reset (r1 r2 : Bool)
  deriving DecidableEq, Repr

def applyPhys (gs : GameState) : PhysOp → GameState
  | PhysOp.step r1 r2 => updateBall r1 r2 gs
  | PhysOp.reset r1 r2 => resetBall r1 r2 gs

def runPhys (ops : List PhysOp) (gs : GameState) : GameState :=
  ops.foldl applyPhys gs

def roomLit (ballv : Ball) (lp rp : Paddle) (sc : Score) (act : Bool)
    (ps : List String) (loop : Bool) : Room :=
  { id := "room1"
    gameState :=
      { ball := ballv, paddles := { left := lp, right := rp }
        score := sc, gameActive := act, players := ps }
    gameLoop := loop }

def ball0 : Ball := { x := 400, y := 200, dx := 4, dy := 4 }

def stA : ServerState :=
  { rooms := [("room1", roomLit ball0 ⟨160, some "A"⟩ ⟨160, none⟩ ⟨0, 0⟩ false ["A"] false)]
    playerRooms := [("A", "room1")] }

def stAA : ServerState :=
  { rooms := [("room1", roomLit ball0 ⟨160, some "A"⟩ ⟨160, some "A"⟩ ⟨0, 0⟩ true ["A", "A"] true)]
    playerRooms := [("A", "room1")] }

def stAB : ServerState :=
  { rooms := [("room1", roomLit ball0 ⟨160, some "A"⟩ ⟨160, some "B"⟩ ⟨0, 0⟩ true ["A", "B"] true)]
    playerRooms := [("A", "room1"), ("B", "room1")] }

def stABC : ServerState :=
  { rooms := [("room1",
      roomLit ball0 ⟨160, some "A"⟩ ⟨160, some "B"⟩ ⟨0, 0⟩ true ["A", "B", "C"] true)]
    playerRooms := [("A", "room1"), ("B", "room1"), ("C", "room1")] }

def stABdC : ServerState :=
  { rooms := [("room1", roomLit ball0 ⟨160, some "A"⟩ ⟨160, some "B"⟩ ⟨0, 0⟩ false ["A", "B"] false)]
    playerRooms := [("A", "room1"), ("B", "room1")] }

def stBC : ServerState :=
  { rooms := [("room1", roomLit ball0 ⟨160, none⟩ ⟨160, some "B"⟩ ⟨0, 0⟩ false ["B", "C"] false)]
    playerRooms := [("B", "room1"), ("C", "room1")] }

def stC : ServerState :=
  { rooms := [("room1", roomLit ball0 ⟨160, none⟩ ⟨160, none⟩ ⟨0, 0⟩ false ["C"] false)]
    playerRooms := [("C", "room1")] }

def stCD : ServerState :=
  { rooms := [("room1", roomLit ball0 ⟨160, some "D"⟩ ⟨160, none⟩ ⟨0, 0⟩ true ["C", "D"] true)]
    playerRooms := [("C", "room1"), ("D", "room1")] }

/-- Ball at `x=395, y=200, dx=4, dy=4` on the 800x400 board with the right
paddle spanning `y ∈ [160, 240]` — the input state of the C3 scenario. -/
def ballScenario : GameState :=
  { ball := { x := 395, y := 200, dx := 4, dy := 4 }
    paddles := { left := { y := 160, playerId := some "A" }
                 right := { y := 160, playerId := some "B" } }
    score := { left := 0, right := 0 }
    gameActive := true
    players := ["A", "B"] }

/-- Ball at `x=778, y=196, dx=4, dy=4`: after integration it is at
`x=782 ≥ 780` and `y=200`, the centre of the right paddle at `y=160`. -/
def ballScenarioHit : GameState :=
  { ball := { x := 778, y := 196, dx := 4, dy := 4 }
    paddles := { left := { y := 160, playerId := some "A" }
                 right := { y := 160, playerId := some "B" } }
    score := { left := 0, right := 0 }
    gameActive := true
    players := ["A", "B"] }

/-- Game state with the ball one step away from leaving the left edge. -/
def gsNearLeft : GameState :=
  { ball := { x := 2, y := 50, dx := -4, dy := 0 }
    paddles := { left := { y := 160, playerId := some "A" }
                 right := { y := 160, playerId := some "B" } }
    score := { left := 0, right := 0 }
    gameActive := true
    players := ["A", "B"] }

/-- Server state after `"A"` joins and moves its paddle up once. -/
def stAup : ServerState :=
  { rooms := [("room1", roomLit ball0 ⟨155, some "A"⟩ ⟨160, none⟩ ⟨0, 0⟩ false ["A"] false)]
    playerRooms := [("A", "room1")] }

/-- Server with one room whose left paddle, owned by `"A"`, already sits at
offset 0. -/
def stTop : ServerState :=
  { rooms := [("room1", roomLit ball0 ⟨0, some "A"⟩ ⟨160, some "B"⟩ ⟨0, 0⟩ true ["A", "B"] true)]
    playerRooms := [("A", "room1"), ("B", "room1")] }


/-! ### Association-list lemmas -/

theorem getEntry_setEntry (k k' : String) (v : α) (l : List (String × α)) :
    getEntry k (setEntry k' v l) = if k' = k then some v else getEntry k l := by
  induction l with
  | nil => simp [getEntry, setEntry]
  | cons e rest ih =>
    obtain ⟨k'', v''⟩ := e
    by_cases h1 : k'' = k'
    · subst h1
      by_cases h2 : k'' = k <;> simp [getEntry, setEntry, h2]
    · by_cases h2 : k'' = k
      · subst h2
        have hne : ¬ k' = k'' := fun h => h1 h.symm
        simp [getEntry, setEntry, h1, hne]
      · simp [getEntry, setEntry, h1, h2, ih]

theorem getEntry_delEntry_ne (k k' : String) (l : List (String × α)) (h : k' ≠ k) :
    getEntry k (delEntry k' l) = getEntry k l := by
  induction l with
  | nil => simp [getEntry, delEntry]
  | cons e rest ih =>
    obtain ⟨k'', v''⟩ := e
    by_cases h1 : k'' = k'
    · subst h1
      have hne : ¬ k'' = k := fun hh => h (hh ▸ rfl)
      simp [getEntry, delEntry, hne]
    · by_cases h2 : k'' = k
      · subst h2
        have hne : ¬ k'' = k' := h1
        simp [getEntry, delEntry, hne]
      · simp [getEntry, delEntry, h1, h2, ih]

theorem delEntry_sublist (k : String) (l : List (String × α)) :
    (delEntry k l).Sublist l := by
  induction l with
  | nil => simp [delEntry]
  | cons e rest ih =>
    by_cases h1 : e.1 = k
    · simp only [delEntry, if_pos h1]
      exact List.sublist_cons_self e rest
    · simp only [delEntry, if_neg h1]
      exact ih.cons₂ e

theorem getEntry_eq_none_of_not_mem (k : String) (l : List (String × α))
    (h : k ∉ l.map Prod.fst) : getEntry k l = none := by
  induction l with
  | nil => simp [getEntry]
  | cons e rest ih =>
    simp only [List.map_cons, List.mem_cons] at h
    push_neg at h
    have h1 : ¬ e.1 = k := fun hh => h.1 hh.symm
    simp [getEntry, h1, ih h.2]

theorem getEntry_delEntry_self (k : String) (l : List (String × α))
    (h : (l.map Prod.fst).Nodup) : getEntry k (delEntry k l) = none := by
  induction l with
  | nil => simp [getEntry, delEntry]
  | cons e rest ih =>
    obtain ⟨k', v'⟩ := e
    simp only [List.map_cons, List.nodup_cons] at h
    by_cases h1 : k' = k
    · subst h1
      simp only [delEntry, if_pos rfl]
      exact getEntry_eq_none_of_not_mem k' rest h.1
    · simp [delEntry, getEntry, h1, ih h.2]

theorem mem_setEntry (k : String) (v : α) (l : List (String × α)) (e : String × α)
    (he : e ∈ setEntry k v l) : e = (k, v) ∨ e ∈ l := by
  induction l with
  | nil => simpa [setEntry] using he
  | cons e' rest ih =>
    by_cases h1 : e'.1 = k
    · rcases (by simpa [setEntry, h1] using he : e = (k, v) ∨ e ∈ rest) with h | h
      · exact Or.inl h
      · exact Or.inr (List.mem_cons_of_mem _ h)
    · rcases (by simpa [setEntry, h1] using he : e = e' ∨ e ∈ setEntry k v rest) with h | h
      · exact Or.inr (h ▸ List.mem_cons_self e' rest)
      · rcases ih h with h2 | h2
        · exact Or.inl h2
        · exact Or.inr (List.mem_cons_of_mem _ h2)

theorem mem_delEntry (k : String) (l : List (String × α)) (e : String × α)
    (he : e ∈ delEntry k l) : e ∈ l :=
  (delEntry_sublist k l).mem he

theorem getEntry_mem (k : String) (l : List (String × α)) (v : α)
    (h : getEntry k l = some v) : (k, v) ∈ l := by
  induction l with
  | nil => simp [getEntry] at h
  | cons e rest ih =>
    obtain ⟨k', v'⟩ := e
    by_cases h1 : k' = k
    · subst h1
      simp only [getEntry, if_true, eq_self_iff_true] at h
      simp only [Option.some.injEq] at h
      subst h
      exact List.mem_cons_self _ _
    · simp only [getEntry, if_neg h1] at h
      exact List.mem_cons_of_mem _ (ih h)

theorem keys_setEntry_subset (k : String) (v : α) (l : List (String × α)) :
    (setEntry k v l).map Prod.fst ⊆ k :: l.map Prod.fst := by
  intro a ha
  simp only [List.mem_map] at ha
  obtain ⟨e, he, rfl⟩ := ha
  rcases mem_setEntry k v l e he with h | h
  · simp [h]
  · simp only [List.mem_cons, List.mem_map]
    exact Or.inr ⟨e, h, rfl⟩

theorem nodup_keys_setEntry (k : String) (v : α) (l : List (String × α))
    (h : (l.map Prod.fst).Nodup) : ((setEntry k v l).map Prod.fst).Nodup := by
  induction l with
  | nil => simp [setEntry]
  | cons e rest ih =>
    obtain ⟨k', v'⟩ := e
    simp only [List.map_cons, List.nodup_cons] at h
    by_cases h1 : k' = k
    · subst h1
      simp only [setEntry, if_true, eq_self_iff_true, List.map_cons, List.nodup_cons]
      exact ⟨h.1, h.2⟩
    · simp only [setEntry, if_neg h1, List.map_cons, List.nodup_cons]
      refine ⟨fun hc => ?_, ih h.2⟩
      rcases List.mem_cons.mp ((keys_setEntry_subset k v rest) hc) with h2 | h2
      · exact h1 h2
      · exact h.1 h2

theorem nodup_keys_delEntry (k : String) (l : List (String × α))
    (h : (l.map Prod.fst).Nodup) : ((delEntry k l).map Prod.fst).Nodup :=
  ((delEntry_sublist k l).map Prod.fst).nodup h

theorem setEntry_eq_of_getEntry (k : String) (v : α) (l : List (String × α))
    (h : getEntry k l = some v) : setEntry k v l = l := by
  induction l with
  | nil => simp [getEntry] at h
  | cons e rest ih =>
    obtain ⟨k', v'⟩ := e
    by_cases h1 : k' = k
    · subst h1
      simp only [getEntry, if_true, eq_self_iff_true] at h
      simp only [Option.some.injEq] at h
      subst h
      simp [setEntry]
    · simp only [getEntry, if_neg h1] at h
      simp [setEntry, h1, ih h]

/-! ### Physics-step frame and velocity lemmas -/

theorem updateBall_frame (r1 r2 : Bool) (gs : GameState) :
    (updateBall r1 r2 gs).paddles = gs.paddles ∧
    (updateBall r1 r2 gs).players = gs.players ∧
    (updateBall r1 r2 gs).gameActive = gs.gameActive := by
  simp only [updateBall, resetBall]
  split_ifs <;> simp

theorem updateBall_score_mono (r1 r2 : Bool) (gs : GameState) :
    gs.score.left ≤ (updateBall r1 r2 gs).score.left ∧
    gs.score.right ≤ (updateBall r1 r2 gs).score.right := by
  simp only [updateBall, resetBall]
  split_ifs <;> simp

theorem resetBall_ball (r1 r2 : Bool) (gs : GameState) :
    (resetBall r1 r2 gs).ball =
      { x := GAME_WIDTH / 2, y := GAME_HEIGHT / 2
        dx := randSpeed r1, dy := randSpeed r2 } := rfl

theorem jsAbs_pm (q : ℚ) (h : q = BALL_SPEED ∨ q = -BALL_SPEED) : jsAbs q = BALL_SPEED := by
  rcases h with h | h <;> subst h <;> norm_num [jsAbs, BALL_SPEED]

theorem randSpeed_pm (r : Bool) : randSpeed r = BALL_SPEED ∨ randSpeed r = -BALL_SPEED := by
  cases r <;> simp [randSpeed]

theorem updateBall_dx_pm (r1 r2 : Bool) (gs : GameState)
    (h : gs.ball.dx = BALL_SPEED ∨ gs.ball.dx = -BALL_SPEED) :
    (updateBall r1 r2 gs).ball.dx = BALL_SPEED ∨
    (updateBall r1 r2 gs).ball.dx = -BALL_SPEED := by
  have habs := jsAbs_pm gs.ball.dx h
  have habs2 : jsAbs BALL_SPEED = BALL_SPEED := by norm_num [jsAbs, BALL_SPEED]
  simp only [updateBall, resetBall]
  split_ifs <;> simp [randSpeed_pm, habs, habs2, h]

/-! ### joinGame characterization -/

theorem assignPaddle_left_ne_none (sid : String) (gs : GameState) :
    (assignPaddle sid gs).paddles.left.playerId ≠ none := by
  unfold assignPaddle
  split_ifs with h1 h2
  · simp
  · exact h1
  · exact h1

theorem assignPaddle_left_y (sid : String) (gs : GameState) :
    (assignPaddle sid gs).paddles.left.y = gs.paddles.left.y := by
  unfold assignPaddle
  split_ifs <;> rfl

theorem assignPaddle_right_y (sid : String) (gs : GameState) :
    (assignPaddle sid gs).paddles.right.y = gs.paddles.right.y := by
  unfold assignPaddle
  split_ifs <;> rfl

theorem assignPaddle_score (sid : String) (gs : GameState) :
    (assignPaddle sid gs).score = gs.score := by
  unfold assignPaddle
  split_ifs <;> rfl

theorem joinGame_rooms (sid : String) (r1 r2 : Bool) (st : ServerState) :
    (joinGame sid r1 r2 st).1.rooms = setEntry "room1" (joinedRoom sid r1 r2 st) st.rooms := rfl

theorem joinGame_playerRooms (sid : String) (r1 r2 : Bool) (st : ServerState) :
    (joinGame sid r1 r2 st).1.playerRooms = setEntry sid "room1" st.playerRooms := rfl

theorem joinedRoom_left_ne_none (sid : String) (r1 r2 : Bool) (st : ServerState) :
    (joinedRoom sid r1 r2 st).gameState.paddles.left.playerId ≠ none := by
  unfold joinedRoom
  cases hg : getEntry "room1" st.rooms <;>
    · simp only []
      split_ifs <;> exact assignPaddle_left_ne_none _ _

theorem joinedRoom_base (sid : String) (r1 r2 : Bool) (st : ServerState) :
    (∃ b, getEntry "room1" st.rooms = some b ∧
      (joinedRoom sid r1 r2 st).gameState.paddles.left.y = b.gameState.paddles.left.y ∧
      (joinedRoom sid r1 r2 st).gameState.paddles.right.y = b.gameState.paddles.right.y ∧
      (joinedRoom sid r1 r2 st).gameState.score = b.gameState.score) ∨
    (getEntry "room1" st.rooms = none ∧
      (joinedRoom sid r1 r2 st).gameState.paddles.left.y = GAME_HEIGHT / 2 - PADDLE_HEIGHT / 2 ∧
      (joinedRoom sid r1 r2 st).gameState.paddles.right.y = GAME_HEIGHT / 2 - PADDLE_HEIGHT / 2 ∧
      (joinedRoom sid r1 r2 st).gameState.score = ⟨0, 0⟩) := by
  unfold joinedRoom
  cases hg : getEntry "room1" st.rooms with
  | none =>
    refine Or.inr ⟨rfl, ?_⟩
    simp only [hg]
    split_ifs <;>
      simp [assignPaddle_left_y, assignPaddle_right_y, assignPaddle_score, createGameState]
  | some b =>
    refine Or.inl ⟨b, rfl, ?_⟩
    simp only [hg]
    split_ifs <;>
      simp [assignPaddle_left_y, assignPaddle_right_y, assignPaddle_score]

/-! ### paddleMove, disconnect and tick characterizations -/

theorem movePaddleY_bounds (dir : Direction) (y : ℚ) (h0 : 0 ≤ y)
    (h1 : y ≤ GAME_HEIGHT - PADDLE_HEIGHT) :
    0 ≤ movePaddleY dir y ∧ movePaddleY dir y ≤ GAME_HEIGHT - PADDLE_HEIGHT := by
  unfold GAME_HEIGHT PADDLE_HEIGHT at h1 ⊢
  unfold movePaddleY PADDLE_SPEED GAME_HEIGHT PADDLE_HEIGHT
  split_ifs with h2 h3
  · exact ⟨le_max_left 0 _, max_le (by norm_num) (by linarith)⟩
  · exact ⟨le_min (by norm_num) (by linarith), min_le_left _ _⟩
  · exact ⟨h0, h1⟩

theorem paddleMove_rooms_cases (sid : String) (dir : Direction) (st : ServerState) :
    (paddleMove sid dir st).1.rooms = st.rooms ∨
    ∃ roomId room R, getEntry roomId st.rooms = some room ∧
      (paddleMove sid dir st).1.rooms = setEntry roomId R st.rooms ∧
      R.id = room.id ∧ R.gameLoop = room.gameLoop ∧
      R.gameState.players = room.gameState.players ∧
      R.gameState.score = room.gameState.score ∧
      R.gameState.gameActive = room.gameState.gameActive ∧
      R.gameState.ball = room.gameState.ball ∧
      R.gameState.paddles.left.playerId = room.gameState.paddles.left.playerId ∧
      R.gameState.paddles.right.playerId = room.gameState.paddles.right.playerId ∧
      ((R.gameState.paddles.left.y = movePaddleY dir room.gameState.paddles.left.y ∧
        R.gameState.paddles.right.y = room.gameState.paddles.right.y) ∨
       (R.gameState.paddles.left.y = room.gameState.paddles.left.y ∧
        R.gameState.paddles.right.y = movePaddleY dir room.gameState.paddles.right.y)) := by
  unfold paddleMove
  split
  · exact Or.inl rfl
  · rename_i roomId hpr
    split
    · exact Or.inl rfl
    · rename_i room heq
      dsimp only
      split_ifs with hL hR
      · exact Or.inr ⟨roomId, room, _, heq, rfl, rfl, rfl, rfl, rfl, rfl, rfl, rfl, rfl,
          Or.inl ⟨rfl, rfl⟩⟩
      · exact Or.inr ⟨roomId, room, _, heq, rfl, rfl, rfl, rfl, rfl, rfl, rfl, rfl, rfl,
          Or.inr ⟨rfl, rfl⟩⟩
      · exact Or.inl rfl

theorem disconnect_rooms_cases (sid : String) (st : ServerState) :
    (disconnectPlayer sid st).1.rooms = st.rooms ∨
    (∃ roomId, (disconnectPlayer sid st).1.rooms = delEntry roomId st.rooms) ∨
    ∃ roomId room R, getEntry roomId st.rooms = some room ∧
      (disconnectPlayer sid st).1.rooms = setEntry roomId R st.rooms ∧
      R.id = room.id ∧ R.gameLoop = false ∧
      R.gameState.score = room.gameState.score ∧
      R.gameState.gameActive = false ∧
      R.gameState.ball = room.gameState.ball ∧
      R.gameState.paddles.left.y = room.gameState.paddles.left.y ∧
      R.gameState.paddles.right.y = room.gameState.paddles.right.y := by
  unfold disconnectPlayer
  split
  · exact Or.inl rfl
  · rename_i roomId hpr
    split
    · exact Or.inl rfl
    · rename_i room heq
      dsimp only
      split_ifs
      all_goals first
        | exact Or.inr (Or.inl ⟨roomId, rfl⟩)
        | exact Or.inr (Or.inr ⟨roomId, room, _, heq, rfl, rfl, rfl, rfl, rfl, rfl, rfl, rfl⟩)

theorem tick_rooms_cases (rid : String) (r1 r2 : Bool) (st : ServerState) :
    (tickRoom rid r1 r2 st).1.rooms = st.rooms ∨
    ∃ room, getEntry rid st.rooms = some room ∧
      (tickRoom rid r1 r2 st).1.rooms =
        setEntry rid { room with gameState := updateBall r1 r2 room.gameState } st.rooms := by
  unfold tickRoom
  split
  · exact Or.inl rfl
  · rename_i room heq
    dsimp only
    split_ifs with hloop
    · exact Or.inr ⟨room, heq, rfl⟩
    · exact Or.inl rfl

/-! ### Reachability induction -/

theorem runOps_append (ops : List Op) (op : Op) :
    runOps (ops ++ [op]) = applyOp (runOps ops) op := by
  simp [runOps, List.foldl_append]

theorem reachable_induct (P : ServerState → Prop) (h0 : P initServer)
    (hstep : ∀ st op, P st → P (applyOp st op)) :
    ∀ st, Reachable st → P st := by
  rintro st ⟨ops, rfl⟩
  suffices h : ∀ (l : List Op) (s : ServerState), P s → P (l.foldl applyOp s) by
    exact h ops initServer h0
  intro l
  induction l with
  | nil => intro s hs; exact hs
  | cons a l ih => intro s hs; exact ih _ (hstep s a hs)

/-! ### Reachable-state invariants -/

theorem applyOp_rooms_shape (st : ServerState) (op : Op) :
    (applyOp st op).rooms = st.rooms ∨
    (∃ k R, (applyOp st op).rooms = setEntry k R st.rooms) ∨
    (∃ k, (applyOp st op).rooms = delEntry k st.rooms) := by
  cases op with
  | join sid r1 r2 => exact Or.inr (Or.inl ⟨"room1", joinedRoom sid r1 r2 st, rfl⟩)
  | move sid dir =>
    rcases paddleMove_rooms_cases sid dir st with h | ⟨k, room, R, hg, h, hrest⟩
    · exact Or.inl h
    · exact Or.inr (Or.inl ⟨k, R, h⟩)
  | disc sid =>
    rcases disconnect_rooms_cases sid st with h | ⟨k, h⟩ | ⟨k, room, R, hg, h, hrest⟩
    · exact Or.inl h
    · exact Or.inr (Or.inr ⟨k, h⟩)
    · exact Or.inr (Or.inl ⟨k, R, h⟩)
  | tick rid r1 r2 =>
    rcases tick_rooms_cases rid r1 r2 st with h | ⟨room, hg, h⟩
    · exact Or.inl h
    · exact Or.inr (Or.inl ⟨rid, _, h⟩)

theorem reachable_nodup_rooms (st : ServerState) (h : Reachable st) :
    (st.rooms.map Prod.fst).Nodup := by
  refine reachable_induct (fun s => (s.rooms.map Prod.fst).Nodup) (by simp [initServer]) ?_ st h
  intro s op hs
  rcases applyOp_rooms_shape s op with h1 | ⟨k, R, h1⟩ | ⟨k, h1⟩
  · rw [h1]; exact hs
  · rw [h1]; exact nodup_keys_setEntry k R s.rooms hs
  · rw [h1]; exact nodup_keys_delEntry k s.rooms hs

theorem reachable_active_left (st : ServerState) (h : Reachable st) :
    ∀ e ∈ st.rooms, e.2.gameState.gameActive = true →
      e.2.gameState.paddles.left.playerId ≠ none := by
  refine reachable_induct
    (fun s => ∀ e ∈ s.rooms, e.2.gameState.gameActive = true →
      e.2.gameState.paddles.left.playerId ≠ none)
    (by simp [initServer]) ?_ st h
  intro s op hs
  cases op with
  | join sid r1 r2 =>
    intro e he hact
    simp only [applyOp, joinGame_rooms] at he
    rcases mem_setEntry _ _ _ _ he with h1 | h1
    · rw [h1]
      exact joinedRoom_left_ne_none sid r1 r2 s
    · exact hs e h1 hact
  | move sid dir =>
    intro e he hact
    simp only [applyOp] at he
    rcases paddleMove_rooms_cases sid dir s with h1 | ⟨k, room, R, hg, h1, hid, hloop,
        hplayers, hscore, hact', hball, hpidL, hpidR, hys⟩
    · rw [h1] at he; exact hs e he hact
    · rw [h1] at he
      rcases mem_setEntry _ _ _ _ he with h2 | h2
      · rw [h2]
        simp only
        rw [hpidL]
        rw [h2] at hact
        simp only at hact
        rw [hact'] at hact
        exact hs (k, room) (getEntry_mem _ _ _ hg) hact
      · exact hs e h2 hact
  | disc sid =>
    intro e he hact
    simp only [applyOp] at he
    rcases disconnect_rooms_cases sid s with h1 | ⟨k, h1⟩ | ⟨k, room, R, hg, h1, hid, hloop,
        hscore, hact', hball, hyL, hyR⟩
    · rw [h1] at he; exact hs e he hact
    · rw [h1] at he; exact hs e (mem_delEntry _ _ _ he) hact
    · rw [h1] at he
      rcases mem_setEntry _ _ _ _ he with h2 | h2
      · rw [h2] at hact
        simp only at hact
        rw [hact'] at hact
        exact absurd hact (by simp)
      · exact hs e h2 hact
  | tick rid r1 r2 =>
    intro e he hact
    simp only [applyOp] at he
    rcases tick_rooms_cases rid r1 r2 s with h1 | ⟨room, hg, h1⟩
    · rw [h1] at he; exact hs e he hact
    · rw [h1] at he
      rcases mem_setEntry _ _ _ _ he with h2 | h2
      · rw [h2]
        simp only
        rw [(updateBall_frame r1 r2 room.gameState).1]
        rw [h2] at hact
        simp only at hact
        rw [(updateBall_frame r1 r2 room.gameState).2.2] at hact
        exact hs (rid, room) (getEntry_mem _ _ _ hg) hact
      · exact hs e h2 hact

theorem reachable_paddles_bounded (st : ServerState) (h : Reachable st) :
    ∀ e ∈ st.rooms,
      (0 ≤ e.2.gameState.paddles.left.y ∧
        e.2.gameState.paddles.left.y ≤ GAME_HEIGHT - PADDLE_HEIGHT) ∧
      (0 ≤ e.2.gameState.paddles.right.y ∧
        e.2.gameState.paddles.right.y ≤ GAME_HEIGHT - PADDLE_HEIGHT) := by
  refine reachable_induct
    (fun s => ∀ e ∈ s.rooms,
      (0 ≤ e.2.gameState.paddles.left.y ∧
        e.2.gameState.paddles.left.y ≤ GAME_HEIGHT - PADDLE_HEIGHT) ∧
      (0 ≤ e.2.gameState.paddles.right.y ∧
        e.2.gameState.paddles.right.y ≤ GAME_HEIGHT - PADDLE_HEIGHT))
    (by simp [initServer]) ?_ st h
  intro s op hs
  cases op with
  | join sid r1 r2 =>
    intro e he
    simp only [applyOp, joinGame_rooms] at he
    rcases mem_setEntry _ _ _ _ he with h1 | h1
    · rw [h1]
      simp only
      rcases joinedRoom_base sid r1 r2 s with ⟨b, hb, hyl, hyr, hsc⟩ | ⟨hb, hyl, hyr, hsc⟩
      · rw [hyl, hyr]
        exact hs (_, b) (getEntry_mem _ _ _ hb)
      · rw [hyl, hyr]
        norm_num [GAME_HEIGHT, PADDLE_HEIGHT]
    · exact hs e h1
  | move sid dir =>
    intro e he
    simp only [applyOp] at he
    rcases paddleMove_rooms_cases sid dir s with h1 | ⟨k, room, R, hg, h1, hid, hloop,
        hplayers, hscore, hact', hball, hpidL, hpidR, hys⟩
    · rw [h1] at he; exact hs e he
    · rw [h1] at he
      rcases mem_setEntry _ _ _ _ he with h2 | h2
      · rw [h2]
        simp only
        have hroom := hs (k, room) (getEntry_mem _ _ _ hg)
        rcases hys with ⟨hyl, hyr⟩ | ⟨hyl, hyr⟩
        · rw [hyl, hyr]
          exact ⟨movePaddleY_bounds dir _ hroom.1.1 hroom.1.2, hroom.2⟩
        · rw [hyl, hyr]
          exact ⟨hroom.1, movePaddleY_bounds dir _ hroom.2.1 hroom.2.2⟩
      · exact hs e h2
  | disc sid =>
    intro e he
    simp only [applyOp] at he
    rcases disconnect_rooms_cases sid s with h1 | ⟨k, h1⟩ | ⟨k, room, R, hg, h1, hid, hloop,
        hscore, hact', hball, hyL, hyR⟩
    · rw [h1] at he; exact hs e he
    · rw [h1] at he; exact hs e (mem_delEntry _ _ _ he)
    · rw [h1] at he
      rcases mem_setEntry _ _ _ _ he with h2 | h2
      · rw [h2]
        simp only
        rw [hyL, hyR]
        exact hs (k, room) (getEntry_mem _ _ _ hg)
      · exact hs e h2
  | tick rid r1 r2 =>
    intro e he
    simp only [applyOp] at he
    rcases tick_rooms_cases rid r1 r2 s with h1 | ⟨room, hg, h1⟩
    · rw [h1] at he; exact hs e he
    · rw [h1] at he
      rcases mem_setEntry _ _ _ _ he with h2 | h2
      · rw [h2]
        simp only
        rw [(updateBall_frame r1 r2 room.gameState).1]
        exact hs (rid, room) (getEntry_mem _ _ _ hg)
      · exact hs e h2

/-! ### Scoring -/

theorem updateBall_scores (r1 r2 : Bool) (gs : GameState) :
    (gs.ball.x + gs.ball.dx < 0 →
      (updateBall r1 r2 gs).score.right = gs.score.right + 1 ∧
      (updateBall r1 r2 gs).score.left = gs.score.left ∧
      (updateBall r1 r2 gs).ball =
        { x := GAME_WIDTH / 2, y := GAME_HEIGHT / 2
          dx := randSpeed r1, dy := randSpeed r2 }) ∧
    (gs.ball.x + gs.ball.dx > GAME_WIDTH →
      (updateBall r1 r2 gs).score.left = gs.score.left + 1 ∧
      (updateBall r1 r2 gs).score.right = gs.score.right ∧
      (updateBall r1 r2 gs).ball =
        { x := GAME_WIDTH / 2, y := GAME_HEIGHT / 2
          dx := randSpeed r1, dy := randSpeed r2 }) := by
  have hW : (0 : ℚ) < GAME_WIDTH := by norm_num [GAME_WIDTH]
  constructor <;> intro hx
  · simp only [updateBall, resetBall]
    split_ifs
    · simp
  · simp only [updateBall, resetBall]
    split_ifs with h1
    · exfalso; linarith
    · simp

theorem score_mono_applyOp (st : ServerState) (h : Reachable st) (op : Op) (rid : String)
    (room room' : Room) (hb : getEntry rid st.rooms = some room)
    (ha : getEntry rid (applyOp st op).rooms = some room') :
    room.gameState.score.left ≤ room'.gameState.score.left ∧
    room.gameState.score.right ≤ room'.gameState.score.right := by
  cases op with
  | join sid r1 r2 =>
    rw [show applyOp st (Op.join sid r1 r2) = (joinGame sid r1 r2 st).1 from rfl,
      joinGame_rooms, getEntry_setEntry] at ha
    split_ifs at ha with hk
    · subst hk
      injection ha with ha
      rcases joinedRoom_base sid r1 r2 st with ⟨b, hb2, hyl, hyr, hsc⟩ | ⟨hb2, hyl, hyr, hsc⟩
      · rw [hb2] at hb
        injection hb with hb
        rw [← ha, hsc, ← hb]
        exact ⟨le_refl _, le_refl _⟩
      · rw [hb2] at hb
        exact absurd hb (by simp)
    · rw [hb] at ha
      injection ha with ha
      rw [ha]
      exact ⟨le_refl _, le_refl _⟩
  | move sid dir =>
    rcases paddleMove_rooms_cases sid dir st with h1 | ⟨k, room0, R, hg, h1, hid, hloop,
        hplayers, hscore, hact', hball, hpidL, hpidR, hys⟩
    · rw [show applyOp st (Op.move sid dir) = (paddleMove sid dir st).1 from rfl, h1, hb] at ha
      injection ha with ha
      rw [ha]
      exact ⟨le_refl _, le_refl _⟩
    · rw [show applyOp st (Op.move sid dir) = (paddleMove sid dir st).1 from rfl, h1,
        getEntry_setEntry] at ha
      split_ifs at ha with hk
      · subst hk
        rw [hg] at hb
        injection hb with hb
        injection ha with ha
        rw [← ha, hscore, hb]
        exact ⟨le_refl _, le_refl _⟩
      · rw [hb] at ha
        injection ha with ha
        rw [ha]
        exact ⟨le_refl _, le_refl _⟩
  | disc sid =>
    rcases disconnect_rooms_cases sid st with h1 | ⟨k, h1⟩ | ⟨k, room0, R, hg, h1, hid, hloop,
        hscore, hact', hball, hyL, hyR⟩
    · rw [show applyOp st (Op.disc sid) = (disconnectPlayer sid st).1 from rfl, h1, hb] at ha
      injection ha with ha
      rw [ha]
      exact ⟨le_refl _, le_refl _⟩
    · rw [show applyOp st (Op.disc sid) = (disconnectPlayer sid st).1 from rfl, h1] at ha
      by_cases hk : k = rid
      · subst hk
        rw [getEntry_delEntry_self _ _ (reachable_nodup_rooms st h)] at ha
        exact absurd ha (by simp)
      · rw [getEntry_delEntry_ne _ _ _ hk, hb] at ha
        injection ha with ha
        rw [ha]
        exact ⟨le_refl _, le_refl _⟩
    · rw [show applyOp st (Op.disc sid) = (disconnectPlayer sid st).1 from rfl, h1,
        getEntry_setEntry] at ha
      split_ifs at ha with hk
      · subst hk
        rw [hg] at hb
        injection hb with hb
        injection ha with ha
        rw [← ha, hscore, hb]
        exact ⟨le_refl _, le_refl _⟩
      · rw [hb] at ha
        injection ha with ha
        rw [ha]
        exact ⟨le_refl _, le_refl _⟩
  | tick tid r1 r2 =>
    rcases tick_rooms_cases tid r1 r2 st with h1 | ⟨room0, hg, h1⟩
    · rw [show applyOp st (Op.tick tid r1 r2) = (tickRoom tid r1 r2 st).1 from rfl, h1, hb] at ha
      injection ha with ha
      rw [ha]
      exact ⟨le_refl _, le_refl _⟩
    · rw [show applyOp st (Op.tick tid r1 r2) = (tickRoom tid r1 r2 st).1 from rfl, h1,
        getEntry_setEntry] at ha
      split_ifs at ha with hk
      · subst hk
        rw [hg] at hb
        injection hb with hb
        injection ha with ha
        rw [← ha, hb]
        exact updateBall_score_mono r1 r2 room.gameState
      · rw [hb] at ha
        injection ha with ha
        rw [ha]
        exact ⟨le_refl _, le_refl _⟩

theorem runPhys_dx_pm (ops : List PhysOp) (gs : GameState)
    (h : gs.ball.dx = BALL_SPEED ∨ gs.ball.dx = -BALL_SPEED) :
    (runPhys ops gs).ball.dx = BALL_SPEED ∨ (runPhys ops gs).ball.dx = -BALL_SPEED := by
  induction ops generalizing gs with
  | nil => exact h
  | cons op rest ih =>
    simp only [runPhys, List.foldl_cons]
    refine ih (applyPhys gs op) ?_
    cases op with
    | step r1 r2 => exact updateBall_dx_pm r1 r2 gs h
    | reset r1 r2 => exact randSpeed_pm r1

/-! ### Concrete executions used by counterexamples and witnesses

The states below are the results of running short operation traces from the
empty server; each `step_` lemma evaluates one operation. -/

theorem half_GAME_WIDTH : GAME_WIDTH / 2 = 400 := by norm_num [GAME_WIDTH]

theorem half_GAME_HEIGHT : GAME_HEIGHT / 2 = 200 := by norm_num [GAME_HEIGHT]

theorem paddle_mid_y : GAME_HEIGHT / 2 - PADDLE_HEIGHT / 2 = 160 := by
  norm_num [GAME_HEIGHT, PADDLE_HEIGHT]

theorem randSpeed_true : randSpeed true = 4 := by norm_num [randSpeed, BALL_SPEED]

theorem createGameState_eval (r1 r2 : Bool) :
    createGameState r1 r2 =
      { ball := { x := 400, y := 200, dx := randSpeed r1, dy := randSpeed r2 }
        paddles := { left := { y := 160, playerId := none }
                     right := { y := 160, playerId := none } }
        score := { left := 0, right := 0 }
        gameActive := false
        players := [] } := by
  norm_num [createGameState, GAME_WIDTH, GAME_HEIGHT, PADDLE_HEIGHT]

theorem step_join_A : applyOp initServer (Op.join "A" true true) = stA := by
  simp [applyOp, joinGame, joinedRoom, assignPaddle, createGameState_eval, initServer,
    getEntry, setEntry, stA, roomLit, ball0, randSpeed_true]

theorem step_join_AA : applyOp stA (Op.join "A" true true) = stAA := by
  simp [applyOp, joinGame, joinedRoom, assignPaddle, getEntry, setEntry,
    stA, stAA, roomLit, ball0]

theorem step_join_B : applyOp stA (Op.join "B" true true) = stAB := by
  simp [applyOp, joinGame, joinedRoom, assignPaddle, getEntry, setEntry,
    stA, stAB, roomLit, ball0]

theorem step_join_C : applyOp stAB (Op.join "C" true true) = stABC := by
  simp [applyOp, joinGame, joinedRoom, assignPaddle, getEntry, setEntry,
    stAB, stABC, roomLit, ball0]

theorem step_disc_C : applyOp stABC (Op.disc "C") = stABdC := by
  simp [applyOp, disconnectPlayer, getEntry, setEntry, delEntry, List.filter,
    stABC, stABdC, roomLit, ball0]

theorem step_disc_A : applyOp stABC (Op.disc "A") = stBC := by
  simp [applyOp, disconnectPlayer, getEntry, setEntry, delEntry, List.filter,
    stABC, stBC, roomLit, ball0]

theorem step_disc_B : applyOp stBC (Op.disc "B") = stC := by
  simp [applyOp, disconnectPlayer, getEntry, setEntry, delEntry, List.filter,
    stBC, stC, roomLit, ball0]

theorem step_join_D : applyOp stC (Op.join "D" true true) = stCD := by
  simp [applyOp, joinGame, joinedRoom, assignPaddle, getEntry, setEntry,
    stC, stCD, roomLit, ball0]

theorem run_A : runOps [Op.join "A" true true] = stA := by
  simp only [runOps, List.foldl_cons, List.foldl_nil, step_join_A]

theorem run_AA : runOps [Op.join "A" true true, Op.join "A" true true] = stAA := by
  simp only [runOps, List.foldl_cons, List.foldl_nil, step_join_A, step_join_AA]

theorem run_AB : runOps [Op.join "A" true true, Op.join "B" true true] = stAB := by
  simp only [runOps, List.foldl_cons, List.foldl_nil, step_join_A, step_join_B]

theorem run_ABdC : runOps [Op.join "A" true true, Op.join "B" true true,
    Op.join "C" true true, Op.disc "C"] = stABdC := by
  simp only [runOps, List.foldl_cons, List.foldl_nil, step_join_A, step_join_B,
    step_join_C, step_disc_C]

theorem run_CD : runOps [Op.join "A" true true, Op.join "B" true true, Op.join "C" true true,
    Op.disc "A", Op.disc "B", Op.join "D" true true] = stCD := by
  simp only [runOps, List.foldl_cons, List.foldl_nil, step_join_A, step_join_B,
    step_join_C, step_disc_A, step_disc_B, step_join_D]

/-! ## Claim theorems -/

/-- Claim C8: in every state reachable from a freshly created game state under
any sequence of physics steps and ball resets, the horizontal velocity `dx` is
exactly plus or minus the configured ball speed: creation and reset set it to
a random sign times `BALL_SPEED`, and paddle collisions only flip its sign. -/
theorem C8_dx_magnitude_invariant (ops : List PhysOp) (r1 r2 : Bool) :
    (runPhys ops (createGameState r1 r2)).ball.dx = BALL_SPEED ∨
    (runPhys ops (createGameState r1 r2)).ball.dx = -BALL_SPEED :=
  runPhys_dx_pm ops (createGameState r1 r2) (randSpeed_pm r1)

/-- Claim C9: one invocation of the physics step `updateBall` leaves the paddle
records (offsets and owners), the player list and the active flag unchanged;
only the ball and score fields may change. -/
theorem C9_updateBall_frame (r1 r2 : Bool) (gs : GameState) :
    (updateBall r1 r2 gs).paddles = gs.paddles ∧
    (updateBall r1 r2 gs).players = gs.players ∧
    (updateBall r1 r2 gs).gameActive = gs.gameActive :=
  updateBall_frame r1 r2 gs

/-- Claim C3 counterexample: on the stated input (`x=395, y=200, dx=4, dy=4`,
right paddle at `y=160`) one physics step moves the ball to `(399, 204)` with
velocity unchanged — the right-paddle trigger needs `x ≥ 780` after
integration, so no collision happens and the claimed `dx = -4 ∧ dy = 0` is
false. -/
theorem C3_counterexample :
    (updateBall true true ballScenario).ball = { x := 399, y := 204, dx := 4, dy := 4 } ∧
    ¬ ((updateBall true true ballScenario).ball.dx = -4 ∧
       (updateBall true true ballScenario).ball.dy = 0) := by
  norm_num [updateBall, resetBall, ballScenario, GAME_WIDTH, GAME_HEIGHT, PADDLE_WIDTH,
    PADDLE_HEIGHT, BALL_SIZE, BALL_SPEED, randSpeed, jsAbs]

/-- Claim C3 (amended): moving the scenario ball into the right-paddle trigger
band (`x=778, y=196`, so after integration `x=782 ≥ 780`, `y=200`, paddle
centre at relative position `(200-160)/80 = 0.5`), one physics step collides
with the right paddle and yields `dx = -4`, `dy = 0`; no score changes. -/
theorem C3_right_paddle_collision (r1 r2 : Bool) :
    (updateBall r1 r2 ballScenarioHit).ball = { x := 782, y := 200, dx := -4, dy := 0 } ∧
    (updateBall r1 r2 ballScenarioHit).score = { left := 0, right := 0 } := by
  norm_num [updateBall, resetBall, ballScenarioHit, GAME_WIDTH, GAME_HEIGHT, PADDLE_WIDTH,
    PADDLE_HEIGHT, BALL_SIZE, BALL_SPEED, randSpeed, jsAbs]

/-- Claim C1 counterexample: a second `joinGame` from the already-joined
connection `"A"` is not a no-op — the players list changes (the id is pushed
again), the right paddle slot is assigned to the same connection, and the
game is activated by the duplicate entry. -/
theorem C1_counterexample :
    ((getEntry "room1" (runOps [Op.join "A" true true, Op.join "A" true true]).rooms).map
      (fun r => r.gameState.players)) ≠
      ((getEntry "room1" (runOps [Op.join "A" true true]).rooms).map
        (fun r => r.gameState.players)) ∧
    ((getEntry "room1" (runOps [Op.join "A" true true, Op.join "A" true true]).rooms).map
      (fun r => (r.gameState.paddles.right.playerId, r.gameState.gameActive))) =
      some (some "A", true) := by
  rw [run_A, run_AA]
  constructor
  · simp [stA, stAA, roomLit, getEntry]
  · simp [stAA, roomLit, getEntry]

/-- Claim C1 (amended): a second join from a connection that is the sole
registered player and owns the left paddle is not absorbed as a no-op: it
appends the connection id to the players list again, assigns the free right
paddle slot to the same connection, and — the duplicate entry bringing the
player count to 2 — activates the room and starts its loop.  Only the reverse
connection-to-room index is unchanged, and no error is surfaced. -/
theorem C1_second_join_rejoins (st : ServerState) (sid : String) (r1 r2 : Bool) (room : Room)
    (hroom : getEntry "room1" st.rooms = some room)
    (hplayers : room.gameState.players = [sid])
    (hleft : room.gameState.paddles.left.playerId = some sid)
    (hright : room.gameState.paddles.right.playerId = none)
    (hidx : getEntry sid st.playerRooms = some "room1") :
    getEntry "room1" (joinGame sid r1 r2 st).1.rooms = some
      { id := "room1"
        gameState :=
          { room.gameState with
            players := [sid, sid]
            paddles := { left := room.gameState.paddles.left
                         right := { room.gameState.paddles.right with playerId := some sid } }
            gameActive := true }
        gameLoop := true } ∧
    (joinGame sid r1 r2 st).1.playerRooms = st.playerRooms := by
  constructor
  · rw [joinGame_rooms, getEntry_setEntry, if_pos rfl]
    unfold joinedRoom
    rw [hroom]
    dsimp only
    unfold assignPaddle
    simp [hplayers, hleft, hright]
  · rw [joinGame_playerRooms]
    exact setEntry_eq_of_getEntry sid "room1" st.playerRooms hidx

/-- Witness for C1: the concrete one-player server `stA` satisfies every
hypothesis of the amended theorem, and the second join of `"A"` produces the
doubly-joined active room. -/
theorem C1_witness :
    getEntry "room1" stA.rooms =
      some (roomLit ball0 ⟨160, some "A"⟩ ⟨160, none⟩ ⟨0, 0⟩ false ["A"] false) ∧
    (roomLit ball0 ⟨160, some "A"⟩ ⟨160, none⟩ ⟨0, 0⟩ false ["A"] false).gameState.players =
      ["A"] ∧
    getEntry "A" stA.playerRooms = some "room1" ∧
    getEntry "room1" (joinGame "A" true true stA).1.rooms =
      some (roomLit ball0 ⟨160, some "A"⟩ ⟨160, some "A"⟩ ⟨0, 0⟩ true ["A", "A"] true) ∧
    (joinGame "A" true true stA).1.playerRooms = stA.playerRooms := by
  have h := C1_second_join_rejoins stA "A" true true
    (roomLit ball0 ⟨160, some "A"⟩ ⟨160, none⟩ ⟨0, 0⟩ false ["A"] false)
    (by simp [stA, getEntry]) (by simp [roomLit]) (by simp [roomLit]) (by simp [roomLit])
    (by simp [stA, getEntry])
  refine ⟨by simp [stA, getEntry], by simp [roomLit], by simp [stA, getEntry], ?_, h.2⟩
  have h1 := h.1
  simpa [roomLit, ball0] using h1

/-- Claim C2 counterexample: the active flag is not equivalent to both paddle
slots being owned, on two reachable states.  After `A`, `B`, `C` join and the
spectator `C` disconnects, the room has both paddles owned but `active =
false`; after `A`, `B`, `C` join, `A` and `B` leave and `D` joins, the room is
active with the right slot unowned. -/
theorem C2_counterexample :
    (¬ ∀ st : ServerState, Reachable st → ∀ (rid : String) (room : Room),
        getEntry rid st.rooms = some room →
        (room.gameState.gameActive = true ↔
          (room.gameState.paddles.left.playerId ≠ none ∧
           room.gameState.paddles.right.playerId ≠ none))) ∧
    ((getEntry "room1" (runOps [Op.join "A" true true, Op.join "B" true true,
        Op.join "C" true true, Op.disc "A", Op.disc "B", Op.join "D" true true]).rooms).map
      (fun r => (r.gameState.gameActive, r.gameState.paddles.right.playerId))) =
      some (true, none) := by
  constructor
  · intro hclaim
    have h2 := hclaim stABdC
      ⟨[Op.join "A" true true, Op.join "B" true true, Op.join "C" true true, Op.disc "C"],
        run_ABdC⟩ "room1"
      (roomLit ball0 ⟨160, some "A"⟩ ⟨160, some "B"⟩ ⟨0, 0⟩ false ["A", "B"] false)
      (by simp [stABdC, getEntry])
    have h3 := h2.mpr (by simp [roomLit])
    simp [roomLit] at h3
  · rw [run_CD]
    simp [stCD, roomLit, getEntry]

/-- Claim C2 (amended): in every reachable server state, every registered room
whose active flag is set has an owned left paddle slot (a join that activates
the room always fills the left slot first).  The converse fails, and the right
slot may be unowned while active — see the counterexample. -/
theorem C2_active_left_owned (st : ServerState) (h : Reachable st) (rid : String) (room : Room)
    (hroom : getEntry rid st.rooms = some room)
    (hact : room.gameState.gameActive = true) :
    room.gameState.paddles.left.playerId ≠ none :=
  reachable_active_left st h (rid, room) (getEntry_mem _ _ _ hroom) hact

/-- Witness for C2: the active two-player room reached by `A` and `B` joining
satisfies the hypotheses, and its left slot is owned. -/
theorem C2_witness :
    Reachable stAB ∧
    getEntry "room1" stAB.rooms =
      some (roomLit ball0 ⟨160, some "A"⟩ ⟨160, some "B"⟩ ⟨0, 0⟩ true ["A", "B"] true) ∧
    (roomLit ball0 ⟨160, some "A"⟩ ⟨160, some "B"⟩ ⟨0, 0⟩ true
      ["A", "B"] true).gameState.gameActive = true ∧
    (roomLit ball0 ⟨160, some "A"⟩ ⟨160, some "B"⟩ ⟨0, 0⟩ true
      ["A", "B"] true).gameState.paddles.left.playerId ≠ none :=
  ⟨⟨[Op.join "A" true true, Op.join "B" true true], run_AB⟩,
   by simp [stAB, getEntry],
   by simp [roomLit],
   C2_active_left_owned stAB ⟨[Op.join "A" true true, Op.join "B" true true], run_AB⟩ "room1"
     (roomLit ball0 ⟨160, some "A"⟩ ⟨160, some "B"⟩ ⟨0, 0⟩ true ["A", "B"] true)
     (by simp [stAB, getEntry]) (by simp [roomLit])⟩

/-- Claim C4: if after ball integration `x < 0`, exactly the right score
increments by 1 and the ball is reset; if `x > GAME_WIDTH`, exactly the left
score increments by 1 and the ball is reset; the reset recentres the ball and
gives `dx` and `dy` magnitude `BALL_SPEED` with independently drawn random
signs; and under every server operation, the scores of a room never
decrease. -/
theorem C4_scoring_and_monotonicity :
    (∀ (gs : GameState) (r1 r2 : Bool),
      (gs.ball.x + gs.ball.dx < 0 →
        (updateBall r1 r2 gs).score.right = gs.score.right + 1 ∧
        (updateBall r1 r2 gs).score.left = gs.score.left ∧
        (updateBall r1 r2 gs).ball =
          { x := GAME_WIDTH / 2, y := GAME_HEIGHT / 2
            dx := randSpeed r1, dy := randSpeed r2 }) ∧
      (gs.ball.x + gs.ball.dx > GAME_WIDTH →
        (updateBall r1 r2 gs).score.left = gs.score.left + 1 ∧
        (updateBall r1 r2 gs).score.right = gs.score.right ∧
        (updateBall r1 r2 gs).ball =
          { x := GAME_WIDTH / 2, y := GAME_HEIGHT / 2
            dx := randSpeed r1, dy := randSpeed r2 })) ∧
    (∀ st : ServerState, Reachable st → ∀ (op : Op) (rid : String) (room room' : Room),
      getEntry rid st.rooms = some room →
      getEntry rid (applyOp st op).rooms = some room' →
      room.gameState.score.left ≤ room'.gameState.score.left ∧
      room.gameState.score.right ≤ room'.gameState.score.right) :=
  ⟨fun gs r1 r2 => updateBall_scores r1 r2 gs,
   fun st h op rid room room' => score_mono_applyOp st h op rid room room'⟩

/-- Witness for C4: on `gsNearLeft` the integrated `x` is `-2 < 0`, the right
score increments and the ball resets; and joining `"B"` into the one-player
server `stA` leaves the room scores unchanged (hence non-decreasing). -/
theorem C4_witness :
    (gsNearLeft.ball.x + gsNearLeft.ball.dx < 0 ∧
      (updateBall true true gsNearLeft).score.right = gsNearLeft.score.right + 1 ∧
      (updateBall true true gsNearLeft).score.left = gsNearLeft.score.left ∧
      (updateBall true true gsNearLeft).ball =
        { x := GAME_WIDTH / 2, y := GAME_HEIGHT / 2
          dx := randSpeed true, dy := randSpeed true }) ∧
    (Reachable stA ∧
      getEntry "room1" stA.rooms =
        some (roomLit ball0 ⟨160, some "A"⟩ ⟨160, none⟩ ⟨0, 0⟩ false ["A"] false) ∧
      getEntry "room1" (applyOp stA (Op.join "B" true true)).rooms =
        some (roomLit ball0 ⟨160, some "A"⟩ ⟨160, some "B"⟩ ⟨0, 0⟩ true ["A", "B"] true) ∧
      ((roomLit ball0 ⟨160, some "A"⟩ ⟨160, none⟩ ⟨0, 0⟩ false
          ["A"] false).gameState.score.left ≤
        (roomLit ball0 ⟨160, some "A"⟩ ⟨160, some "B"⟩ ⟨0, 0⟩ true
          ["A", "B"] true).gameState.score.left ∧
       (roomLit ball0 ⟨160, some "A"⟩ ⟨160, none⟩ ⟨0, 0⟩ false
          ["A"] false).gameState.score.right ≤
        (roomLit ball0 ⟨160, some "A"⟩ ⟨160, some "B"⟩ ⟨0, 0⟩ true
          ["A", "B"] true).gameState.score.right)) := by
  constructor
  · refine ⟨by norm_num [gsNearLeft], ?_⟩
    exact (C4_scoring_and_monotonicity.1 gsNearLeft true true).1 (by norm_num [gsNearLeft])
  · refine ⟨⟨[Op.join "A" true true], run_A⟩, by simp [stA, getEntry], ?_, ?_⟩
    · rw [step_join_B]
      simp [stAB, getEntry]
    · exact C4_scoring_and_monotonicity.2 stA ⟨[Op.join "A" true true], run_A⟩
        (Op.join "B" true true) "room1"
        (roomLit ball0 ⟨160, some "A"⟩ ⟨160, none⟩ ⟨0, 0⟩ false ["A"] false)
        (roomLit ball0 ⟨160, some "A"⟩ ⟨160, some "B"⟩ ⟨0, 0⟩ true ["A", "B"] true)
        (by simp [stA, getEntry])
        (by rw [step_join_B]; simp [stAB, getEntry])

/-- Claim C5: in every reachable server state — in particular after any
sequence of movePaddle requests applied to a freshly created game state —
every registered room has both paddle offsets within
`[0, GAME_HEIGHT - PADDLE_HEIGHT]`. -/
theorem C5_paddle_offsets_bounded (st : ServerState) (h : Reachable st) (rid : String)
    (room : Room) (hroom : getEntry rid st.rooms = some room) :
    (0 ≤ room.gameState.paddles.left.y ∧
      room.gameState.paddles.left.y ≤ GAME_HEIGHT - PADDLE_HEIGHT) ∧
    (0 ≤ room.gameState.paddles.right.y ∧
      room.gameState.paddles.right.y ≤ GAME_HEIGHT - PADDLE_HEIGHT) :=
  reachable_paddles_bounded st h (rid, room) (getEntry_mem _ _ _ hroom)

theorem step_move_A : applyOp stA (Op.move "A" Direction.up) = stAup := by
  simp [applyOp, paddleMove, getEntry, setEntry, stA, stAup, roomLit, ball0, movePaddleY]
  norm_num [PADDLE_SPEED, GAME_HEIGHT, PADDLE_HEIGHT, max_def]

theorem run_Aup : runOps [Op.join "A" true true, Op.move "A" Direction.up] = stAup := by
  simp only [runOps, List.foldl_cons, List.foldl_nil, step_join_A, step_move_A]

/-- Witness for C5: after `"A"` joins and moves up once, the left paddle sits
at offset 155, inside the bounds. -/
theorem C5_witness :
    Reachable stAup ∧
    getEntry "room1" stAup.rooms =
      some (roomLit ball0 ⟨155, some "A"⟩ ⟨160, none⟩ ⟨0, 0⟩ false ["A"] false) ∧
    ((0 ≤ (roomLit ball0 ⟨155, some "A"⟩ ⟨160, none⟩ ⟨0, 0⟩ false
        ["A"] false).gameState.paddles.left.y ∧
      (roomLit ball0 ⟨155, some "A"⟩ ⟨160, none⟩ ⟨0, 0⟩ false
        ["A"] false).gameState.paddles.left.y ≤ GAME_HEIGHT - PADDLE_HEIGHT) ∧
     (0 ≤ (roomLit ball0 ⟨155, some "A"⟩ ⟨160, none⟩ ⟨0, 0⟩ false
        ["A"] false).gameState.paddles.right.y ∧
      (roomLit ball0 ⟨155, some "A"⟩ ⟨160, none⟩ ⟨0, 0⟩ false
        ["A"] false).gameState.paddles.right.y ≤ GAME_HEIGHT - PADDLE_HEIGHT)) :=
  ⟨⟨[Op.join "A" true true, Op.move "A" Direction.up], run_Aup⟩,
   by simp [stAup, getEntry],
   C5_paddle_offsets_bounded stAup
     ⟨[Op.join "A" true true, Op.move "A" Direction.up], run_Aup⟩ "room1"
     (roomLit ball0 ⟨155, some "A"⟩ ⟨160, none⟩ ⟨0, 0⟩ false ["A"] false)
     (by simp [stAup, getEntry])⟩

/-- Claim C6: when a paddle-owning connection of an active room disconnects
while another player remains, the departing slot is vacated, the active flag
is cleared, the loop handle is cleared, a `playerDisconnected` event is
broadcast to the room, and the other paddle record (owner and offset alike)
is untouched — stated for a departing left owner and a departing right
owner. -/
theorem C6_disconnect_while_active (st : ServerState) (sid other rid : String) (room : Room)
    (hidx : getEntry sid st.playerRooms = some rid)
    (hroom : getEntry rid st.rooms = some room)
    (_hactive : room.gameState.gameActive = true)
    (hmem : other ∈ room.gameState.players)
    (hne : other ≠ sid) :
    (room.gameState.paddles.left.playerId = some sid →
      room.gameState.paddles.right.playerId ≠ some sid →
      getEntry rid (disconnectPlayer sid st).1.rooms = some
        { id := room.id
          gameState :=
            { room.gameState with
              players := room.gameState.players.filter (fun id => id ≠ sid)
              paddles := { left := { room.gameState.paddles.left with playerId := none }
                           right := room.gameState.paddles.right }
              gameActive := false }
          gameLoop := false } ∧
      (disconnectPlayer sid st).2 = [Emit.toRoom rid Msg.playerDisconnected]) ∧
    (room.gameState.paddles.right.playerId = some sid →
      room.gameState.paddles.left.playerId ≠ some sid →
      getEntry rid (disconnectPlayer sid st).1.rooms = some
        { id := room.id
          gameState :=
            { room.gameState with
              players := room.gameState.players.filter (fun id => id ≠ sid)
              paddles := { left := room.gameState.paddles.left
                           right := { room.gameState.paddles.right with playerId := none } }
              gameActive := false }
          gameLoop := false } ∧
      (disconnectPlayer sid st).2 = [Emit.toRoom rid Msg.playerDisconnected]) := by
  have hforall : ¬ ∀ a ∈ room.gameState.players, a = sid := fun hall => hne (hall other hmem)
  constructor
  · intro hL hR
    simp only [disconnectPlayer, hidx, hroom]
    simp [hforall, hL, hR, getEntry_setEntry]
  · intro hR hL
    simp only [disconnectPlayer, hidx, hroom]
    simp [hforall, hL, hR, getEntry_setEntry]

/-- Witness for C6: in the active room of `stAB`, the left owner `"A"`
disconnects while `"B"` remains; the left slot empties, the room deactivates
and stops, `playerDisconnected` is broadcast, and `"B"`'s paddle record is
unchanged. -/
theorem C6_witness :
    getEntry "A" stAB.playerRooms = some "room1" ∧
    getEntry "room1" stAB.rooms =
      some (roomLit ball0 ⟨160, some "A"⟩ ⟨160, some "B"⟩ ⟨0, 0⟩ true ["A", "B"] true) ∧
    (roomLit ball0 ⟨160, some "A"⟩ ⟨160, some "B"⟩ ⟨0, 0⟩ true
      ["A", "B"] true).gameState.gameActive = true ∧
    "B" ∈ (roomLit ball0 ⟨160, some "A"⟩ ⟨160, some "B"⟩ ⟨0, 0⟩ true
      ["A", "B"] true).gameState.players ∧
    (roomLit ball0 ⟨160, some "A"⟩ ⟨160, some "B"⟩ ⟨0, 0⟩ true
      ["A", "B"] true).gameState.paddles.left.playerId = some "A" ∧
    getEntry "room1" (disconnectPlayer "A" stAB).1.rooms =
      some (roomLit ball0 ⟨160, none⟩ ⟨160, some "B"⟩ ⟨0, 0⟩ false ["B"] false) ∧
    (disconnectPlayer "A" stAB).2 = [Emit.toRoom "room1" Msg.playerDisconnected] := by
  have h := (C6_disconnect_while_active stAB "A" "B" "room1"
    (roomLit ball0 ⟨160, some "A"⟩ ⟨160, some "B"⟩ ⟨0, 0⟩ true ["A", "B"] true)
    (by simp [stAB, getEntry]) (by simp [stAB, getEntry]) (by simp [roomLit])
    (by simp [roomLit]) (by simp)).1 (by simp [roomLit]) (by simp [roomLit])
  refine ⟨by simp [stAB, getEntry], by simp [stAB, getEntry], by simp [roomLit],
    by simp [roomLit], by simp [roomLit], ?_, h.2⟩
  have h1 := h.1
  simpa [roomLit, ball0] using h1

/-- Claim C7: once the disconnect of the last connection empties a room's
player list, the room identifier maps to nothing in the registry; and a later
join under `"room1"` when the identifier is absent builds a brand-new room
from `createGameState` (initial ball, zero scores, inactive, the joiner as
sole player owning the left paddle) instead of reusing old state. -/
theorem C7_room_destroyed_then_fresh (st : ServerState) (h : Reachable st) (sid rid : String)
    (room : Room)
    (hidx : getEntry sid st.playerRooms = some rid)
    (hroom : getEntry rid st.rooms = some room)
    (hempty : room.gameState.players.filter (fun id => id ≠ sid) = []) :
    getEntry rid (disconnectPlayer sid st).1.rooms = none ∧
    (∀ (sid2 : String) (r1 r2 : Bool) (st2 : ServerState),
      getEntry "room1" st2.rooms = none →
      getEntry "room1" (joinGame sid2 r1 r2 st2).1.rooms = some
        { id := "room1"
          gameState :=
            { ball := { x := GAME_WIDTH / 2, y := GAME_HEIGHT / 2
                        dx := randSpeed r1, dy := randSpeed r2 }
              paddles :=
                { left := { y := GAME_HEIGHT / 2 - PADDLE_HEIGHT / 2, playerId := some sid2 }
                  right := { y := GAME_HEIGHT / 2 - PADDLE_HEIGHT / 2, playerId := none } }
              score := { left := 0, right := 0 }
              gameActive := false
              players := [sid2] }
          gameLoop := false }) := by
  constructor
  · have hlen : (room.gameState.players.filter (fun id => id ≠ sid)).length = 0 := by
      rw [hempty]
      rfl
    simp only [disconnectPlayer, hidx, hroom]
    simp only [hlen, if_pos rfl]
    simp only [reduceIte]
    exact getEntry_delEntry_self rid st.rooms (reachable_nodup_rooms st h)
  · intro sid2 r1 r2 st2 h2
    rw [joinGame_rooms, getEntry_setEntry, if_pos rfl]
    unfold joinedRoom
    rw [h2]
    dsimp only
    norm_num [assignPaddle, createGameState, GAME_WIDTH, GAME_HEIGHT, PADDLE_HEIGHT]

/-- Witness for C7: `"A"` is the last player of the room in `stA`; its
disconnect removes `"room1"` from the registry, and a fresh join of `"Z"`
into the empty server creates a new room owning only `"Z"`. -/
theorem C7_witness :
    Reachable stA ∧
    getEntry "A" stA.playerRooms = some "room1" ∧
    getEntry "room1" stA.rooms =
      some (roomLit ball0 ⟨160, some "A"⟩ ⟨160, none⟩ ⟨0, 0⟩ false ["A"] false) ∧
    (roomLit ball0 ⟨160, some "A"⟩ ⟨160, none⟩ ⟨0, 0⟩ false
      ["A"] false).gameState.players.filter (fun id => id ≠ "A") = [] ∧
    getEntry "room1" (disconnectPlayer "A" stA).1.rooms = none ∧
    getEntry "room1" initServer.rooms = none ∧
    getEntry "room1" (joinGame "Z" true true initServer).1.rooms = some
      { id := "room1"
        gameState :=
          { ball := { x := GAME_WIDTH / 2, y := GAME_HEIGHT / 2
                      dx := randSpeed true, dy := randSpeed true }
            paddles :=
              { left := { y := GAME_HEIGHT / 2 - PADDLE_HEIGHT / 2, playerId := some "Z" }
                right := { y := GAME_HEIGHT / 2 - PADDLE_HEIGHT / 2, playerId := none } }
            score := { left := 0, right := 0 }
            gameActive := false
            players := ["Z"] }
        gameLoop := false } := by
  have h := C7_room_destroyed_then_fresh stA ⟨[Op.join "A" true true], run_A⟩ "A" "room1"
    (roomLit ball0 ⟨160, some "A"⟩ ⟨160, none⟩ ⟨0, 0⟩ false ["A"] false)
    (by simp [stA, getEntry]) (by simp [stA, getEntry]) (by simp [roomLit])
  exact ⟨⟨[Op.join "A" true true], run_A⟩, by simp [stA, getEntry], by simp [stA, getEntry],
    by simp [roomLit], h.1, rfl, h.2 "Z" true true initServer rfl⟩

/-- Claim C10: a movePaddle request from a connection owning a paddle in its
resolved room always emits exactly one `paddleUpdate` broadcast to that room,
carrying the owned paddle's side and its post-clamp offset (the offset now
stored in the room), whether or not the clamp changed it. -/
theorem C10_paddleUpdate_always_emitted (st : ServerState) (sid : String) (dir : Direction)
    (rid : String) (room : Room)
    (hidx : getEntry sid st.playerRooms = some rid)
    (hroom : getEntry rid st.rooms = some room) :
    (room.gameState.paddles.left.playerId = some sid →
      (paddleMove sid dir st).2 =
        [Emit.toRoom rid (Msg.paddleUpdate Side.left
          (movePaddleY dir room.gameState.paddles.left.y))] ∧
      getEntry rid (paddleMove sid dir st).1.rooms = some
        { id := room.id
          gameState :=
            { room.gameState with
              paddles :=
                { left := { room.gameState.paddles.left with
                            y := movePaddleY dir room.gameState.paddles.left.y }
                  right := room.gameState.paddles.right } }
          gameLoop := room.gameLoop }) ∧
    (room.gameState.paddles.left.playerId ≠ some sid →
      room.gameState.paddles.right.playerId = some sid →
      (paddleMove sid dir st).2 =
        [Emit.toRoom rid (Msg.paddleUpdate Side.right
          (movePaddleY dir room.gameState.paddles.right.y))] ∧
      getEntry rid (paddleMove sid dir st).1.rooms = some
        { id := room.id
          gameState :=
            { room.gameState with
              paddles :=
                { left := room.gameState.paddles.left
                  right := { room.gameState.paddles.right with
                             y := movePaddleY dir room.gameState.paddles.right.y } } }
          gameLoop := room.gameLoop }) := by
  constructor
  · intro hL
    simp only [paddleMove, hidx, hroom]
    simp [hL, getEntry_setEntry]
  · intro hL hR
    simp only [paddleMove, hidx, hroom]
    simp [hL, hR, getEntry_setEntry]

/-- Witness for C10: `"A"` moves up while its paddle is already at offset 0;
the clamp leaves the offset at 0 and the `paddleUpdate` broadcast is emitted
anyway, carrying side `left` and offset 0. -/
theorem C10_witness :
    getEntry "A" stTop.playerRooms = some "room1" ∧
    getEntry "room1" stTop.rooms =
      some (roomLit ball0 ⟨0, some "A"⟩ ⟨160, some "B"⟩ ⟨0, 0⟩ true ["A", "B"] true) ∧
    (roomLit ball0 ⟨0, some "A"⟩ ⟨160, some "B"⟩ ⟨0, 0⟩ true
      ["A", "B"] true).gameState.paddles.left.playerId = some "A" ∧
    movePaddleY Direction.up
      (roomLit ball0 ⟨0, some "A"⟩ ⟨160, some "B"⟩ ⟨0, 0⟩ true
        ["A", "B"] true).gameState.paddles.left.y = 0 ∧
    (paddleMove "A" Direction.up stTop).2 =
      [Emit.toRoom "room1" (Msg.paddleUpdate Side.left 0)] := by
  have hy : movePaddleY Direction.up (0 : ℚ) = 0 := by
    simp [movePaddleY]
  have h := (C10_paddleUpdate_always_emitted stTop "A" Direction.up "room1"
    (roomLit ball0 ⟨0, some "A"⟩ ⟨160, some "B"⟩ ⟨0, 0⟩ true ["A", "B"] true)
    (by simp [stTop, getEntry]) (by simp [stTop, getEntry])).1 (by simp [roomLit])
  refine ⟨by simp [stTop, getEntry], by simp [stTop, getEntry], by simp [roomLit],
    by simpa [roomLit] using hy, ?_⟩
  have h1 := h.1
  rw [show (roomLit ball0 ⟨0, some "A"⟩ ⟨160, some "B"⟩ ⟨0, 0⟩ true
    ["A", "B"] true).gameState.paddles.left.y = (0 : ℚ) from rfl, hy] at h1
  exact h1

end Pong
